import Mathlib

/-!
Shallow embedding of the dairy-herd forecasting service
(`backend/app` of the DunkanDoika repository), covering:

* the forecast-job store (`app/repositories/forecast_jobs.py`);
* the worker pipeline entry (`app/jobs/forecast_jobs.py`);
* the two Monte Carlo orchestrators and their aggregation
  (`app/simulator/forecast.py`, `app/simulator/forecast_herd_m5.py`);
* the herd_m5 daily simulator metrics (`app/simulator/herd_m5/simulation.py`,
  `cows_with_death.py`) and the legacy engine head-counts
  (`app/simulator/engine.py`);
* the culling-hazard estimator (`app/simulator/policies.py`);
* purchase-item validation (`app/api/schemas.py`).

Machine reals in the source (numpy / Python floats) are modelled as `ℚ`;
dates are modelled as integer day numbers; mutation is modelled by
explicit state passing.
-/

namespace HerdSpec

/-! ## Forecast job store (`app/repositories/forecast_jobs.py`) -/

/-- `ForecastJobStatus` from `app/api/schemas.py`. -/
inductive ForecastJobStatus where
  | queued
  | running
  | succeeded
  | failed
  | canceled
  deriving DecidableEq, Repr

/-- The terminal set used by the repository guards:
`{SUCCEEDED, FAILED, CANCELED}` (lines 109/146/165 of the repository). -/
def ForecastJobStatus.isTerminal (s : ForecastJobStatus) : Bool :=
  s = .succeeded || s = .failed || s = .canceled

/-- The mutable columns of `ForecastJobModel` that the repository touches.
Timestamps are abstract clock readings (`ℕ`); `mc_runs_param` is the
`mc_runs` entry of the stored `params_json` (validated `ScenarioParams`,
so it is a natural number). -/
structure ForecastJobModel where
  status : ForecastJobStatus
  progress_pct : ℤ
  completed_runs : ℤ
  total_runs : ℤ
  error_message : Option String
  result_object_key : Option String
  csv_object_key : Option String
  xlsx_object_key : Option String
  queued_at : ℕ
  started_at : Option ℕ
  finished_at : Option ℕ
  mc_runs_param : ℕ
  deriving DecidableEq, Repr

namespace Repo

/-- `ForecastJobRepository.create`: insert with status queued, progress 0,
counters `0 / params.mc_runs`. -/
def create (mc_runs : ℕ) (now : ℕ) : ForecastJobModel :=
  { status := .queued
    progress_pct := 0
    completed_runs := 0
    total_runs := (mc_runs : ℤ)
    error_message := none
    result_object_key := none
    csv_object_key := none
    xlsx_object_key := none
    queued_at := now
    started_at := none
    finished_at := none
    mc_runs_param := mc_runs }

/-- `ForecastJobRepository.mark_running` (acting on a fetched row): the
terminal guard returns the row unchanged; otherwise the status becomes
running, `progress_pct` is set to the supplied value (unclamped in the
source), `completed_runs` resets to 0, and `total_runs` is clamped at 0
when supplied. -/
def mark_running (job : ForecastJobModel) (progress_pct : ℤ)
    (total_runs : Option ℤ) (now : ℕ) : ForecastJobModel :=
  if job.status.isTerminal then job
  else
    { job with
      status := .running
      progress_pct := progress_pct
      completed_runs := 0
      total_runs := match total_runs with
        | some t => max 0 t
        | none => job.total_runs
      started_at := some now }

/-- `ForecastJobRepository.update_progress`: writes are dropped unless the
row is currently running; `progress_pct` is clamped into `[0, 100]` and the
counters at 0. -/
def update_progress (job : ForecastJobModel) (progress_pct : ℤ)
    (completed_runs total_runs : Option ℤ) : ForecastJobModel :=
  if job.status ≠ ForecastJobStatus.running then job
  else
    { job with
      progress_pct := max 0 (min 100 progress_pct)
      completed_runs := match completed_runs with
        | some c => max 0 c
        | none => job.completed_runs
      total_runs := match total_runs with
        | some t => max 0 t
        | none => job.total_runs }

/-- `ForecastJobRepository.mark_failed`: guarded by the terminal set. -/
def mark_failed (job : ForecastJobModel) (message : String) (now : ℕ) :
    ForecastJobModel :=
  if job.status.isTerminal then job
  else
    { job with
      status := .failed
      error_message := some message
      finished_at := some now }

/-- `ForecastJobRepository.mark_succeeded`: guarded by the terminal set;
on success sets progress 100, `completed_runs := max completed total`,
clears the error and stores the three artifact keys. -/
def mark_succeeded (job : ForecastJobModel)
    (result_object_key csv_object_key xlsx_object_key : String) (now : ℕ) :
    ForecastJobModel :=
  if job.status.isTerminal then job
  else
    { job with
      status := .succeeded
      progress_pct := 100
      completed_runs := max job.completed_runs job.total_runs
      error_message := none
      result_object_key := some result_object_key
      csv_object_key := some csv_object_key
      xlsx_object_key := some xlsx_object_key
      finished_at := some now }

/-- `ForecastJobRepository.requeue`: unconditional reset to queued with
zeroed counters; `total_runs` is re-read from the stored params. -/
def requeue (job : ForecastJobModel) : ForecastJobModel :=
  { job with
    status := .queued
    progress_pct := 0
    completed_runs := 0
    total_runs := (job.mc_runs_param : ℤ)
    error_message := none
    started_at := none
    finished_at := none }

end Repo

/-! ## Worker pipeline entry (`app/jobs/forecast_jobs.py`, `run_forecast_job`) -/

/-- Observable side effects of one pipeline execution: bus publishes and
artifact uploads.  Job-row writes are tracked through the returned row. -/
inductive JobEffect where
  | publish (event_kind : String)
  | upload (bucket : String) (key : String)
  deriving DecidableEq, Repr

/-- The collaborators `run_forecast_job` consults, with the simulation
itself abstracted: `progress_updates` is the sequence of
`(progress_pct, completed_runs, total_runs)` triples the Monte Carlo
progress callback pushes through `update_progress` (one per completed
batch). -/
structure WorkerEnv where
  job_id : String
  job : Option ForecastJobModel
  dataset_row_present : Bool
  dataset_object_available : Bool
  progress_updates : List (ℤ × ℤ × ℤ)
  deriving Repr

/-- `run_forecast_job`: returns the final job row together with the list
of published events and uploaded artifacts, in program order.  Mirrors the
source control flow: missing row → return; status in `{succeeded, failed}`
→ return; `mark_running` + progress publish; dataset-row and
dataset-object failure branches; otherwise the progress callbacks, the
three artifact uploads, `mark_succeeded` and the terminal publish. -/
def run_forecast_job (env : WorkerEnv) (now : ℕ) :
    Option ForecastJobModel × List JobEffect :=
  match env.job with
  | none => (none, [])
  | some job =>
    if job.status = ForecastJobStatus.succeeded
        ∨ job.status = ForecastJobStatus.failed then
      (some job, [])
    else
      let job1 := Repo.mark_running job 10 (some (job.mc_runs_param : ℤ)) now
      let effs1 : List JobEffect := [.publish "job_progress"]
      if !env.dataset_row_present then
        let jobF := Repo.mark_failed job1
          "DATASET_NOT_FOUND: dataset metadata missing" now
        (some jobF, effs1 ++ [.publish "job_failed"])
      else if !env.dataset_object_available then
        let jobF := Repo.mark_failed job1
          "DATASET_OBJECT_MISSING: dataset object missing in storage" now
        (some jobF, effs1 ++ [.publish "job_failed"])
      else
        let job2 := env.progress_updates.foldl
          (fun j u => Repo.update_progress j u.1 (some u.2.1) (some u.2.2)) job1
        let effsP := env.progress_updates.map
          (fun _ => JobEffect.publish "job_progress")
        let result_key := "results/" ++ env.job_id ++ ".json"
        let csv_key := "exports/" ++ env.job_id ++ ".csv"
        let xlsx_key := "exports/" ++ env.job_id ++ ".xlsx"
        let job3 := Repo.mark_succeeded job2 result_key csv_key xlsx_key now
        (some job3,
          effs1 ++ effsP ++
          [.upload "results" result_key,
           .upload "exports" csv_key,
           .upload "exports" xlsx_key,
           .publish "job_succeeded"])

/-! ## herd_m5 daily metrics (`herd_m5/simulation.py`, `cows_with_death.py`) -/

/-- Cow statuses of the herd_m5 simulator (`cows_with_death.py`). -/
inductive CowStatus where
  | heifer
  | pregnant_heifer
  | fresh
  | ready_for_breeding
  | pregnant
  | dry
  | culled
  deriving DecidableEq, Repr

/-- The fields of `Cow` consulted by the metric snapshots. -/
structure Cow where
  status : CowStatus
  days_in_milk : ℤ
  deriving DecidableEq, Repr

/-- `Cow.is_milking`: status in `('fresh', 'ready_for_breeding', 'pregnant')`. -/
def Cow.is_milking (c : Cow) : Bool :=
  c.status = .fresh || c.status = .ready_for_breeding || c.status = .pregnant

/-- Accumulator of the head-count loops in `Simulation._record_metrics`
and `_initial_snapshot`. -/
structure MetricCounts where
  milking : ℤ
  dry : ℤ
  heifer : ℤ
  pregnant_heifer : ℤ
  dim_sum : ℤ
  deriving DecidableEq, Repr

/-- One iteration of the `_record_metrics` counting loop: the status
buckets are an if/elif chain, milking and the DIM sum are a separate
check on `is_milking` (a culled cow lands in no bucket). -/
def metricStep (acc : MetricCounts) (c : Cow) : MetricCounts :=
  let acc :=
    if c.status = CowStatus.dry then { acc with dry := acc.dry + 1 }
    else if c.status = CowStatus.heifer then { acc with heifer := acc.heifer + 1 }
    else if c.status = CowStatus.pregnant_heifer then
      { acc with pregnant_heifer := acc.pregnant_heifer + 1 }
    else acc
  if c.is_milking then
    { acc with milking := acc.milking + 1, dim_sum := acc.dim_sum + c.days_in_milk }
  else acc

/-- The head-count part of `Simulation._record_metrics`. -/
def record_counts (herd : List Cow) : MetricCounts :=
  herd.foldl metricStep ⟨0, 0, 0, 0, 0⟩

/-- `_record_metrics` average DIM: `(dim_sum / milking) if milking else 0.0`. -/
def record_avg_dim (herd : List Cow) : ℚ :=
  let m := record_counts herd
  if m.milking = 0 then 0 else (m.dim_sum : ℚ) / (m.milking : ℚ)

/-- `_initial_snapshot` (`forecast_herd_m5.py`) average DIM:
`float(dim_sum / milking) if milking else None`.  The counting loop there
skips culled cows explicitly and otherwise matches `metricStep`. -/
def initial_avg_dim (herd : List Cow) : Option ℚ :=
  let m := record_counts herd
  if m.milking = 0 then none else some ((m.dim_sum : ℚ) / (m.milking : ℚ))

/-! ## Legacy engine head counts (`app/simulator/engine.py`, `types.py`) -/

/-- `Status` from `app/simulator/types.py`. -/
inductive AnimalStatus where
  | heifer
  | pregnant_heifer
  | milking
  | dry
  | archived
  deriving DecidableEq, Repr

/-- The fields of `Animal` consulted by `counts_on`; dates are integer
day numbers. -/
structure Animal where
  lactation_no : ℤ
  status : AnimalStatus
  archive_date : Option ℤ
  dryoff_date : Option ℤ
  last_calving_date : Option ℤ
  next_calving_date : Option ℤ
  deriving DecidableEq, Repr

/-- `Animal.is_alive_on`: `archive_date is None or archive_date > d`. -/
def Animal.is_alive_on (a : Animal) (d : ℤ) : Bool :=
  match a.archive_date with
  | none => true
  | some t => d < t

/-- `Animal.in_milking_on`. -/
def Animal.in_milking_on (a : Animal) (d : ℤ) : Bool :=
  if !(a.is_alive_on d) then false
  else if a.lactation_no ≤ 0 then false
  else
    match a.last_calving_date with
    | none => false
    | some lc =>
      if (match a.dryoff_date with | some dd => decide (dd ≤ d) | none => false) then
        false
      else decide (lc ≤ d)

/-- `Animal.in_dry_on`. -/
def Animal.in_dry_on (a : Animal) (d : ℤ) : Bool :=
  if !(a.is_alive_on d) then false
  else
    match a.dryoff_date with
    | none => false
    | some dd =>
      decide (dd ≤ d) &&
        (match a.next_calving_date with | none => true | some nc => decide (d < nc))

/-- Accumulator of the `counts_on` loop. -/
structure EngineCounts where
  milking : ℤ
  dry : ℤ
  heifer : ℤ
  pregnant_heifer : ℤ
  deriving DecidableEq, Repr

/-- One iteration of the `SimulationEngine.counts_on` loop. -/
def countsStep (d : ℤ) (acc : EngineCounts) (a : Animal) : EngineCounts :=
  if !(a.is_alive_on d) then acc
  else if a.lactation_no = 0 then
    if a.status = AnimalStatus.pregnant_heifer then
      { acc with pregnant_heifer := acc.pregnant_heifer + 1 }
    else { acc with heifer := acc.heifer + 1 }
  else
    if a.in_dry_on d || a.status = AnimalStatus.dry then
      { acc with dry := acc.dry + 1 }
    else if a.in_milking_on d || a.status = AnimalStatus.milking then
      { acc with milking := acc.milking + 1 }
    else acc

/-- `SimulationEngine.counts_on`. -/
def counts_on (animals : List Animal) (d : ℤ) : EngineCounts :=
  animals.foldl (countsStep d) ⟨0, 0, 0, 0⟩

/-! ## Monte Carlo aggregation
(`forecast.py` legacy path, `forecast_herd_m5.py` preferred path) -/

/-- One snapshot series point (`ForecastPoint` row dict): a date (day
number), four head counts and an optional average days-in-milk. -/
structure SnapshotRow where
  day : ℤ
  milking_count : ℤ
  dry_count : ℤ
  heifer_count : ℤ
  pregnant_heifer_count : ℤ
  avg_days_in_milk : Option ℚ
  deriving DecidableEq, Repr, Inhabited

/-- Linear interpolation of a sorted list at a fractional 0-indexed
position: `s[⌊pos⌋] + (pos − ⌊pos⌋)·(s[⌊pos⌋+1] − s[⌊pos⌋])`, the upper
index clipped to the last element. -/
def sortedInterp (s : List ℚ) (pos : ℚ) : ℚ :=
  s.getD (⌊pos⌋).toNat 0 +
    (pos - ((⌊pos⌋ : ℤ) : ℚ)) *
      (s.getD (min ((⌊pos⌋).toNat + 1) (s.length - 1)) 0 -
        s.getD (⌊pos⌋).toNat 0)

/-- `np.percentile(values, q)` with the default linear interpolation:
sort, take the 0-indexed position `q·(n−1)/100`, and interpolate between
the neighbouring order statistics. -/
def npPercentile (values : List ℚ) (q : ℚ) : ℚ :=
  sortedInterp (values.insertionSort (· ≤ ·))
    (q * (((values.insertionSort (· ≤ ·)).length : ℚ) - 1) / 100)

/-- Python 3 `int(round(x))`: round half to even. -/
def roundHalfEven (x : ℚ) : ℤ :=
  let f := ⌊x⌋
  let r := x - (f : ℚ)
  if r < 1 / 2 then f
  else if 1 / 2 < r then f + 1
  else if f % 2 = 0 then f else f + 1

/-- `EventsByMonth`. -/
structure EventsByMonth where
  month : ℤ
  calvings : ℤ
  dryoffs : ℤ
  culls : ℤ
  purchases_in : ℤ
  heifer_intros : ℤ
  deriving DecidableEq, Repr

/-- `ForecastResult` (the parts the aggregation writes). -/
structure ForecastResult where
  series_p50 : List SnapshotRow
  series_p10 : Option (List SnapshotRow)
  series_p90 : Option (List SnapshotRow)
  events : List EventsByMonth
  future_point : Option SnapshotRow
  deriving DecidableEq, Repr

/-- `_accumulate_events`: add one run's per-month counters into the
accumulator dictionary (modelled as a list keyed by month, insertion
order preserved as in a Python dict). -/
def addMonthEvents (accum : List EventsByMonth) (e : EventsByMonth) :
    List EventsByMonth :=
  if accum.any (fun x => x.month = e.month) then
    accum.map (fun x =>
      if x.month = e.month then
        { x with
          calvings := x.calvings + e.calvings
          dryoffs := x.dryoffs + e.dryoffs
          culls := x.culls + e.culls
          purchases_in := x.purchases_in + e.purchases_in
          heifer_intros := x.heifer_intros + e.heifer_intros }
      else x)
  else accum ++ [e]

/-- Fold `_accumulate_events` over the runs completed so far. -/
def accumulate_events (runsEvents : List (List EventsByMonth)) :
    List EventsByMonth :=
  runsEvents.foldl (fun accum run => run.foldl addMonthEvents accum) []

/-- The per-month emission step shared by both `_build_result_from_runs`
variants: sort by month and, when more than one run completed, divide
each counter by the run count and round (`int(round(x / divider))`). -/
def emit_events (accum : List EventsByMonth) (completed : ℕ) :
    List EventsByMonth :=
  let sorted := accum.insertionSort (fun a b => a.month ≤ b.month)
  if 1 < completed then
    let divider : ℚ := (max 1 completed : ℕ)
    sorted.map (fun e =>
      { e with
        calvings := roundHalfEven ((e.calvings : ℚ) / divider)
        dryoffs := roundHalfEven ((e.dryoffs : ℚ) / divider)
        culls := roundHalfEven ((e.culls : ℚ) / divider)
        purchases_in := roundHalfEven ((e.purchases_in : ℚ) / divider)
        heifer_intros := roundHalfEven ((e.heifer_intros : ℚ) / divider) })
  else sorted

/-- The per-index body of `_percentile_rows` (herd_m5): for each numeric
field take `np.percentile` of the values of that field across the runs;
head-count fields are then `int(round(·))`, `avg_days_in_milk` stays a
float and is computed over the non-null values only (null when none). -/
def percentile_row_at (runs : List (List SnapshotRow)) (q : ℚ) (idx : ℕ) :
    SnapshotRow :=
  let rows := runs.map (fun run => run.getD idx default)
  let countAt := fun (f : SnapshotRow → ℤ) =>
    roundHalfEven (npPercentile (rows.map (fun r => ((f r : ℤ) : ℚ))) q)
  let avgVals := rows.filterMap (fun r => r.avg_days_in_milk)
  { day := ((runs.headD []).getD idx default).day
    milking_count := countAt (fun r => r.milking_count)
    dry_count := countAt (fun r => r.dry_count)
    heifer_count := countAt (fun r => r.heifer_count)
    pregnant_heifer_count := countAt (fun r => r.pregnant_heifer_count)
    avg_days_in_milk :=
      if avgVals.isEmpty then none else some (npPercentile avgVals q) }

/-- `_percentile_rows` (herd_m5). -/
def percentile_rows (runs : List (List SnapshotRow)) (q : ℚ) :
    List SnapshotRow :=
  (List.range (runs.headD []).length).map (percentile_row_at runs q)

/-- `_percentile_series` (legacy `forecast.py`): only
`avg_days_in_milk` is aggregated; every other field of the output row is
copied from the first run. -/
def percentile_series (runs : List (List SnapshotRow)) (q : ℚ) :
    List SnapshotRow :=
  (List.range (runs.headD []).length).map (fun idx =>
    let base := (runs.headD []).getD idx default
    let vals := runs.filterMap (fun run => (run.getD idx default).avg_days_in_milk)
    { base with
      avg_days_in_milk :=
        if vals.isEmpty then none else some (npPercentile vals q) })

/-- `_build_result_from_runs` of `forecast_herd_m5.py`: quantile bands at
`(1−c)/2 · 100` and `100 − (1−c)/2 · 100` percent, always emitted. -/
def build_result_herd_m5 (runs : List (List SnapshotRow))
    (events_accum : List EventsByMonth) (completed : ℕ)
    (confidence_central : ℚ) (future_date : Option ℤ) : ForecastResult :=
  let lower_q := (1 - confidence_central) / 2 * 100
  let upper_q := 100 - lower_q
  let p50 := percentile_rows runs 50
  let plo := percentile_rows runs lower_q
  let phi := percentile_rows runs upper_q
  { series_p50 := p50
    series_p10 := some plo
    series_p90 := some phi
    events := emit_events events_accum completed
    future_point :=
      future_date.bind (fun fd => p50.find? (fun r => r.day = fd)) }

/-- `_build_result_from_runs` of the legacy `forecast.py`: one completed
run is returned raw with no bands; otherwise `_percentile_series` at the
fixed percentiles 50 / 10 / 90. -/
def build_result_legacy (runs : List (List SnapshotRow))
    (events_accum : List EventsByMonth) (completed : ℕ)
    (future_date : Option ℤ) : ForecastResult :=
  let events := emit_events events_accum completed
  if completed = 1 then
    { series_p50 := runs.headD []
      series_p10 := none
      series_p90 := none
      events := events
      future_point :=
        future_date.bind (fun fd => (runs.headD []).find? (fun r => r.day = fd)) }
  else
    let p50 := percentile_series runs 50
    { series_p50 := p50
      series_p10 := some (percentile_series runs 10)
      series_p90 := some (percentile_series runs 90)
      events := events
      future_point :=
        future_date.bind (fun fd => p50.find? (fun r => r.day = fd)) }

/-- The claim's description of the quantile, written from the spec's
words (refinement side): linear interpolation between order statistics of
the sorted values at 0-indexed position `p·(n−1)`, `p` a fraction in
`[0, 1]`. -/
def quantileAtFraction (values : List ℚ) (p : ℚ) : ℚ :=
  sortedInterp (values.insertionSort (· ≤ ·))
    (p * (((values.insertionSort (· ≤ ·)).length : ℚ) - 1))

/-- The claim's description of one aggregated series point at snapshot
index `idx` (refinement side, written from the spec's words): each
numeric field is the `quantileAtFraction` of that field's values across
runs; head counts rounded to the nearest integer, average days-in-milk
left fractional (over the non-null values, null when none). -/
def claim_aggregated_row (runs : List (List SnapshotRow)) (idx : ℕ)
    (p : ℚ) : SnapshotRow :=
  let rows := runs.map (fun run => run.getD idx default)
  let avgVals := rows.filterMap (fun r => r.avg_days_in_milk)
  { day := ((runs.headD []).getD idx default).day
    milking_count :=
      roundHalfEven (quantileAtFraction (rows.map (fun r => ((r.milking_count : ℤ) : ℚ))) p)
    dry_count :=
      roundHalfEven (quantileAtFraction (rows.map (fun r => ((r.dry_count : ℤ) : ℚ))) p)
    heifer_count :=
      roundHalfEven (quantileAtFraction (rows.map (fun r => ((r.heifer_count : ℤ) : ℚ))) p)
    pregnant_heifer_count :=
      roundHalfEven (quantileAtFraction (rows.map (fun r => ((r.pregnant_heifer_count : ℤ) : ℚ))) p)
    avg_days_in_milk :=
      if avgVals.isEmpty then none else some (quantileAtFraction avgVals p) }

/-! ## Monte Carlo orchestration loop (seeding and batching) -/

/-- The seed list both orchestrators derive from the master seed:
`[params.seed + i * 9973 for i in range(total_runs)]`. -/
def mcSeeds (seed : ℤ) (mc_runs : ℕ) : List ℤ :=
  (List.range mc_runs).map (fun (i : ℕ) => seed + (i : ℤ) * 9973)

/-- `for start in range(0, total, safe_batch_size)` slicing
`all_seeds[start : start + safe_batch_size]`, where
`safe_batch_size = max(1, batch_size)`. -/
def batchSlices (batch_size : ℕ) (seeds : List ℤ) : List (List ℤ) :=
  if h : seeds = [] then []
  else
    seeds.take (max 1 batch_size) ::
      batchSlices batch_size (seeds.drop (max 1 batch_size))
termination_by seeds.length
decreasing_by
  have hlen : 0 < seeds.length := List.length_pos.mpr h
  simp only [List.length_drop]
  omega

/-- The full sequence of run outputs appended by `on_batch_done`, in
order: each batch is mapped through the single-run function and the
batches are concatenated. -/
def orchestrated_runs {α : Type} (runOne : ℤ → α) (seed : ℤ)
    (mc_runs batch_size : ℕ) : List α :=
  ((batchSlices batch_size (mcSeeds seed mc_runs)).map
    (fun chunk => chunk.map runOne)).flatten

/-- The final result of `run_forecast_herd_m5` (sequential branch): run
every seed, aggregate the snapshot series and the event dictionaries,
and build the result from `max 1 completed_runs` completed runs. -/
def run_forecast_model
    (runOne : ℤ → List SnapshotRow × List EventsByMonth) (seed : ℤ)
    (mc_runs batch_size : ℕ) (confidence_central : ℚ)
    (future_date : Option ℤ) : ForecastResult :=
  let outs := orchestrated_runs runOne seed mc_runs batch_size
  build_result_herd_m5 (outs.map Prod.fst)
    (accumulate_events (outs.map Prod.snd))
    (max 1 outs.length) confidence_central future_date

/-! ## Culling hazard estimation
(`app/simulator/policies.py`, `CullingPolicy.estimate_from_dataset`) -/

/-- Strata of the default `lactation` grouping
(`CullingPolicy._lact_group`). -/
inductive LactGroup where
  | l0
  | l1
  | l2
  | l3
  | l4plus
  deriving DecidableEq, Repr

/-- `_lact_group`. -/
def lact_group (lact : ℤ) : LactGroup :=
  if lact ≤ 0 then .l0
  else if lact = 1 then .l1
  else if lact = 2 then .l2
  else if lact = 3 then .l3
  else .l4plus

/-- The dataset columns the estimator reads: lactation number and the
optional archive (cull) date, as a day number. -/
structure DatasetRow where
  lactation : ℤ
  archive : Option ℤ
  deriving DecidableEq, Repr

/-- Membership in the `culled` frame: archive present and inside
`[report_date − 730, report_date]`. -/
def culled_in_window (report_date : ℤ) (r : DatasetRow) : Bool :=
  match r.archive with
  | none => false
  | some t => decide (report_date - 730 ≤ t) && decide (t ≤ report_date)

/-- Membership in the `alive` frame: archive absent or after the report
date. -/
def alive_at_report (report_date : ℤ) (r : DatasetRow) : Bool :=
  match r.archive with
  | none => true
  | some t => decide (report_date < t)

/-- Number of culls of a stratum within the 730-day window. -/
def cull_events (rows : List DatasetRow) (report_date : ℤ) (g : LactGroup) : ℕ :=
  (rows.filter (fun r =>
    culled_in_window report_date r && lact_group r.lactation = g)).length

/-- Number of animals of a stratum alive on the report date. -/
def alive_count (rows : List DatasetRow) (report_date : ℤ) (g : LactGroup) : ℕ :=
  (rows.filter (fun r =>
    alive_at_report report_date r && lact_group r.lactation = g)).length

/-- Hazard assigned to one stratum by `estimate_from_dataset`:
with `c` culls and `a` alive, groups with `a + c < 30` get the configured
fallback; otherwise `min(0.2, max(0.0, c / max(1.0, (a + 0.5·c)·24)))`. -/
def estimated_monthly_hazard (rows : List DatasetRow) (report_date : ℤ)
    (fallback_monthly_hazard : ℚ) (g : LactGroup) : ℚ :=
  let c := cull_events rows report_date g
  let a := alive_count rows report_date g
  if a + c < 30 then fallback_monthly_hazard
  else
    let exposure_months : ℚ := max 1 (((a : ℚ) + (1 / 2) * (c : ℚ)) * 24)
    min (1 / 5) (max 0 ((c : ℚ) / exposure_months))

/-! ## Purchase item validation (`app/api/schemas.py`, `PurchaseItem`) -/

/-- A boundary value for an optional field before pydantic validation:
absent, a raw string, or an already-typed value. -/
inductive RawOpt (α : Type) where
  | absent
  | rawStr (s : String)
  | val (v : α)
  deriving DecidableEq, Repr

/-- `not value.strip()` for a string: every character is whitespace. -/
def strips_to_empty (s : String) : Bool :=
  s.data.all Char.isWhitespace

/-- The `mode="before"` validators
(`empty_expected_calving_date_to_none`, `empty_days_pregnant_to_none`):
a string that strips to empty becomes `None`. -/
def normalize_empty {α : Type} : RawOpt α → RawOpt α
  | .rawStr s => if strips_to_empty s then .absent else .rawStr s
  | r => r

/-- Pydantic type coercion of an optional field after the before-hook:
a surviving raw string must parse (the parser stands for pydantic's date
and int coercion), otherwise a validation error. -/
def coerce_opt {α : Type} (parse : String → Option α) :
    RawOpt α → Except String (Option α)
  | .absent => .ok none
  | .val v => .ok (some v)
  | .rawStr s =>
    match parse s with
    | some v => .ok (some v)
    | none => .error "TYPE_ERROR"

/-- A validated `PurchaseItem`. -/
structure PurchaseItem where
  date_in : ℤ
  count : ℤ
  expected_calving_date : Option ℤ
  days_pregnant : Option ℤ
  deriving DecidableEq, Repr

/-- Full validation of one purchase item: field constraints
(`count ∈ [1, 5000]`, `days_pregnant ∈ [0, 280]`), the empty-string
before-hooks, and the `validate_exclusive` model validator rejecting
both-present and both-absent. -/
def validate_purchase_item (parse_date parse_int : String → Option ℤ)
    (date_in : ℤ) (count : ℤ) (expected_raw days_raw : RawOpt ℤ) :
    Except String PurchaseItem :=
  if decide (count < 1) || decide (5000 < count) then
    .error "REQUEST_VALIDATION_ERROR: count out of range"
  else
    match coerce_opt parse_date (normalize_empty expected_raw) with
    | .error e => .error e
    | .ok expected =>
      match coerce_opt parse_int (normalize_empty days_raw) with
      | .error e => .error e
      | .ok days =>
        if (match days with
            | some w => decide (w < 0) || decide (280 < w)
            | none => false) then
          .error "REQUEST_VALIDATION_ERROR: days_pregnant out of range"
        else
          match expected, days with
          | some _, some _ =>
            .error "Provide either expected_calving_date or days_pregnant (not both)"
          | none, none =>
            .error "Provide expected_calving_date or days_pregnant"
          | _, _ =>
            .ok { date_in := date_in, count := count,
                  expected_calving_date := expected, days_pregnant := days }

/-! ## Concrete rows used by witnesses and counterexamples -/

/-- A failed job row, as left by `mark_failed` on a fresh job. -/
def sampleFailedJob : ForecastJobModel :=
  Repo.mark_failed (Repo.create 3 0) "INTERNAL_ERROR: boom" 1

/-- A canceled job row. -/
def sampleCanceledJob : ForecastJobModel :=
  { Repo.create 3 0 with status := ForecastJobStatus.canceled }

/-- A worker environment holding a canceled job with all collaborators
healthy. -/
def canceledEnv : WorkerEnv :=
  { job_id := "j1"
    job := some sampleCanceledJob
    dataset_row_present := true
    dataset_object_available := true
    progress_updates := [(50, 1, 3)] }

/-- A single snapshot row used by aggregation witnesses. -/
def sampleRow : SnapshotRow :=
  { day := 0, milking_count := 3, dry_count := 1, heifer_count := 2,
    pregnant_heifer_count := 0, avg_days_in_milk := some 10 }

/-- A second snapshot row differing in the milking count. -/
def sampleRowB : SnapshotRow :=
  { day := 0, milking_count := 5, dry_count := 1, heifer_count := 2,
    pregnant_heifer_count := 0, avg_days_in_milk := some 14 }

/-- The range invariant of claim C10: progress in `[0, 100]`, counters
non-negative. -/
def JobCountersInRange (j : ForecastJobModel) : Prop :=
  0 ≤ j.progress_pct ∧ j.progress_pct ≤ 100 ∧
    0 ≤ j.completed_runs ∧ 0 ≤ j.total_runs

/-! # Theorems -/

/-! ## C1: terminal-state guards of the job store -/

/-- After `mark_failed` the row's status is always terminal (either the
guard fired on an already-terminal row, or the status was set to failed). -/
theorem mark_failed_is_terminal (j : ForecastJobModel) (m : String) (t : ℕ) :
    (Repo.mark_failed j m t).status.isTerminal = true := by
  unfold Repo.mark_failed
  split
  · assumption
  · simp [ForecastJobStatus.isTerminal]

/-- C1: for a job row in a terminal state, `mark_running`, `mark_failed`
and `mark_succeeded` all return the row unchanged; and for any row,
`mark_succeeded` after `mark_failed` leaves the failed row untouched — in
particular the status stays failed (when the row was not already
terminal) and no artifact keys are written. -/
theorem job_store_terminal_guards_C1 (job : ForecastJobModel) (p : ℤ)
    (tr : Option ℤ) (now : ℕ) (m k1 k2 k3 : String)
    (h : job.status.isTerminal = true) :
    Repo.mark_running job p tr now = job ∧
    Repo.mark_failed job m now = job ∧
    Repo.mark_succeeded job k1 k2 k3 now = job ∧
    (∀ (j2 : ForecastJobModel) (m2 : String) (t1 t2 : ℕ),
      Repo.mark_succeeded (Repo.mark_failed j2 m2 t1) k1 k2 k3 t2 =
        Repo.mark_failed j2 m2 t1 ∧
      (j2.status.isTerminal = false →
        (Repo.mark_failed j2 m2 t1).status = ForecastJobStatus.failed) ∧
      (Repo.mark_failed j2 m2 t1).result_object_key = j2.result_object_key ∧
      (Repo.mark_failed j2 m2 t1).csv_object_key = j2.csv_object_key ∧
      (Repo.mark_failed j2 m2 t1).xlsx_object_key = j2.xlsx_object_key) := by
  refine ⟨by simp [Repo.mark_running, h], by simp [Repo.mark_failed, h],
    by simp [Repo.mark_succeeded, h], ?_⟩
  intro j2 m2 t1 t2
  refine ⟨by simp [Repo.mark_succeeded, mark_failed_is_terminal], ?_, ?_, ?_, ?_⟩
  · intro h2
    simp [Repo.mark_failed, h2]
  · unfold Repo.mark_failed
    by_cases h2 : j2.status.isTerminal = true <;> simp [h2]
  · unfold Repo.mark_failed
    by_cases h2 : j2.status.isTerminal = true <;> simp [h2]
  · unfold Repo.mark_failed
    by_cases h2 : j2.status.isTerminal = true <;> simp [h2]

/-- Witness for C1 at a concrete failed row. -/
theorem job_store_terminal_guards_C1_witness :
    Repo.mark_running sampleFailedJob 10 none 2 = sampleFailedJob ∧
    Repo.mark_failed sampleFailedJob "again" 2 = sampleFailedJob ∧
    Repo.mark_succeeded sampleFailedJob "r" "c" "x" 2 = sampleFailedJob := by
  have h := job_store_terminal_guards_C1 sampleFailedJob 10 none 2 "again"
    "r" "c" "x" (by decide)
  exact ⟨h.1, h.2.1, h.2.2.1⟩

/-! ## C10: counter ranges after job-store writes -/

/-- C10 counterexample: `mark_running` stores its `progress_pct` argument
without clamping, so a queued row marked running with progress 101
violates `progress_pct ≤ 100`. -/
theorem mark_running_unclamped_C10_cex :
    (Repo.mark_running (Repo.create 5 0) 101 none 1).progress_pct = 101 ∧
    ¬ (Repo.mark_running (Repo.create 5 0) 101 none 1).progress_pct ≤ 100 := by
  decide

/-- C10 (amended): `create` and `requeue` establish the range invariant
outright; `update_progress`, `mark_failed` and `mark_succeeded` preserve
it; `mark_running` preserves it provided the supplied initial progress
lies in `[0, 100]` (the worker passes 10) — `mark_running` itself does
not clamp. -/
theorem job_counter_ranges_C10 (mc now : ℕ) (j : ForecastJobModel)
    (p : ℤ) (cu tu tr : Option ℤ) (m k1 k2 k3 : String) :
    JobCountersInRange (Repo.create mc now) ∧
    JobCountersInRange (Repo.requeue j) ∧
    (JobCountersInRange j → 0 ≤ p → p ≤ 100 →
      JobCountersInRange (Repo.mark_running j p tr now)) ∧
    (JobCountersInRange j →
      JobCountersInRange (Repo.update_progress j p cu tu)) ∧
    (JobCountersInRange j → JobCountersInRange (Repo.mark_failed j m now)) ∧
    (JobCountersInRange j →
      JobCountersInRange (Repo.mark_succeeded j k1 k2 k3 now)) := by
  refine ⟨?_, ?_, ?_, ?_, ?_, ?_⟩
  · exact ⟨le_refl 0, by show (0 : ℤ) ≤ 100; norm_num, le_refl 0,
      Int.natCast_nonneg mc⟩
  · exact ⟨le_refl 0, by show (0 : ℤ) ≤ 100; norm_num, le_refl 0,
      Int.natCast_nonneg _⟩
  · intro hj h0 h100
    unfold Repo.mark_running
    split
    · exact hj
    · obtain ⟨h1, h2, h3, h4⟩ := hj
      cases tr with
      | none => exact ⟨h0, h100, le_refl _, h4⟩
      | some t => exact ⟨h0, h100, le_refl _, le_max_left _ _⟩
  · intro hj
    unfold Repo.update_progress
    split
    · exact hj
    · obtain ⟨h1, h2, h3, h4⟩ := hj
      refine ⟨le_max_left _ _, max_le (by norm_num) (min_le_left _ _), ?_, ?_⟩
      · cases cu with
        | none => exact h3
        | some c => exact le_max_left _ _
      · cases tu with
        | none => exact h4
        | some t => exact le_max_left _ _
  · intro hj
    unfold Repo.mark_failed
    split
    · exact hj
    · exact hj
  · intro hj
    unfold Repo.mark_succeeded
    split
    · exact hj
    · obtain ⟨h1, h2, h3, h4⟩ := hj
      exact ⟨by norm_num, by norm_num, le_trans h3 (le_max_left _ _), h4⟩

/-- Witness for C10 at concrete inputs. -/
theorem job_counter_ranges_C10_witness :
    JobCountersInRange (Repo.create 5 0) ∧
    JobCountersInRange
      (Repo.mark_running (Repo.create 5 0) 10 (some 5) 1) := by
  have h := job_counter_ranges_C10 5 1 (Repo.create 5 0) 10 none none
    (some 5) "m" "r" "c" "x"
  have hc := (job_counter_ranges_C10 5 0 (Repo.create 5 0) 10 none none
    (some 5) "m" "r" "c" "x").1
  exact ⟨hc, h.2.2.1 hc (by norm_num) (by norm_num)⟩

/-! ## C8: culling-hazard fallback floor and formula -/

/-- C8: in `estimate_from_dataset`, a stratum with fewer than 30 animals
(alive + culled in the 730-day window) gets the configured fallback
hazard; any other stratum gets exactly
`culls / ((alive + 0.5·culled) · 24)` — the `max(1.0, ·)` exposure floor
and the `[0, 0.2]` clamp are no-ops there. -/
theorem culling_hazard_estimation_C8 (rows : List DatasetRow)
    (report_date : ℤ) (fallback : ℚ) (g : LactGroup) :
    (alive_count rows report_date g + cull_events rows report_date g < 30 →
      estimated_monthly_hazard rows report_date fallback g = fallback) ∧
    (30 ≤ alive_count rows report_date g + cull_events rows report_date g →
      estimated_monthly_hazard rows report_date fallback g =
        (cull_events rows report_date g : ℚ) /
          (((alive_count rows report_date g : ℚ) +
            (1 / 2) * (cull_events rows report_date g : ℚ)) * 24)) := by
  set c := cull_events rows report_date g with hc
  set a := alive_count rows report_date g with ha
  constructor
  · intro hlt
    unfold estimated_monthly_hazard
    rw [← hc, ← ha]
    simp [hlt]
  · intro hge
    unfold estimated_monthly_hazard
    rw [← hc, ← ha]
    rw [if_neg (by omega)]
    show min (1 / 5) (max 0 ((c : ℚ) /
      max 1 (((a : ℚ) + (1 / 2) * (c : ℚ)) * 24))) = _
    have hcast : (30 : ℚ) ≤ (a : ℚ) + (c : ℚ) := by
      have := hge
      push_cast
      exact_mod_cast this
    have hD : (360 : ℚ) ≤ ((a : ℚ) + (1 / 2) * (c : ℚ)) * 24 := by nlinarith
    have hDpos : (0 : ℚ) < ((a : ℚ) + (1 / 2) * (c : ℚ)) * 24 := by linarith
    have hmax : max (1 : ℚ) (((a : ℚ) + (1 / 2) * (c : ℚ)) * 24) =
        ((a : ℚ) + (1 / 2) * (c : ℚ)) * 24 :=
      max_eq_right (by linarith)
    rw [hmax]
    have hquot0 : (0 : ℚ) ≤ (c : ℚ) / (((a : ℚ) + (1 / 2) * (c : ℚ)) * 24) :=
      div_nonneg (by positivity) (le_of_lt hDpos)
    rw [max_eq_right hquot0]
    refine min_eq_right ?_
    rw [div_le_iff hDpos]
    have hcnn : (0 : ℚ) ≤ (c : ℚ) := by positivity
    have hann : (0 : ℚ) ≤ (a : ℚ) := by positivity
    nlinarith

/-- Witness for C8: a 10-animal stratum falls back; a 40-animal stratum
with 16 culls gets `16 / ((24 + 8)·24)`. -/
theorem culling_hazard_estimation_C8_witness :
    (alive_count [⟨1, none⟩] 1000 .l1 +
        cull_events [⟨1, none⟩] 1000 .l1 < 30 ∧
      estimated_monthly_hazard [⟨1, none⟩] 1000 (8 / 1000) .l1 = 8 / 1000) ∧
    (30 ≤ alive_count (List.replicate 24 ⟨1, none⟩ ++
          List.replicate 16 ⟨1, some 900⟩) 1000 .l1 +
        cull_events (List.replicate 24 ⟨1, none⟩ ++
          List.replicate 16 ⟨1, some 900⟩) 1000 .l1 ∧
      estimated_monthly_hazard (List.replicate 24 ⟨1, none⟩ ++
          List.replicate 16 ⟨1, some 900⟩) 1000 (8 / 1000) .l1 =
        (16 : ℚ) / (((24 : ℚ) + (1 / 2) * 16) * 24)) := by
  constructor
  · refine ⟨by decide, ?_⟩
    exact (culling_hazard_estimation_C8 [⟨1, none⟩] 1000 (8 / 1000) .l1).1
      (by decide)
  · refine ⟨by decide, ?_⟩
    have h := (culling_hazard_estimation_C8
      (List.replicate 24 ⟨1, none⟩ ++ List.replicate 16 ⟨1, some 900⟩)
      1000 (8 / 1000) .l1).2 (by decide)
    have hc : cull_events (List.replicate 24 ⟨1, none⟩ ++
        List.replicate 16 ⟨1, some 900⟩) 1000 .l1 = 16 := by decide
    have ha : alive_count (List.replicate 24 ⟨1, none⟩ ++
        List.replicate 16 ⟨1, some 900⟩) 1000 .l1 = 24 := by decide
    rw [hc, ha] at h
    exact_mod_cast h

/-! ## C9: purchase-item field exclusivity -/

/-- C9: purchase-item validation accepts exactly one of
`expected_calving_date` and `days_pregnant`: both-present and
both-absent are rejected; an empty (or whitespace-only) string for either
field is normalized to absent before the exclusivity check; and the two
one-sided items validate successfully. -/
theorem purchase_item_validation_C9 (pd pi : String → Option ℤ)
    (d c v w : ℤ) (s t : String) (er dr : RawOpt ℤ)
    (hs : strips_to_empty s = true) (ht : strips_to_empty t = true)
    (hc1 : 1 ≤ c) (hc2 : c ≤ 5000) (hw1 : 0 ≤ w) (hw2 : w ≤ 280) :
    (∀ item, validate_purchase_item pd pi d c (.val v) (.val w) ≠ .ok item) ∧
    (∀ item, validate_purchase_item pd pi d c .absent .absent ≠ .ok item) ∧
    validate_purchase_item pd pi d c (.rawStr s) dr =
      validate_purchase_item pd pi d c .absent dr ∧
    validate_purchase_item pd pi d c er (.rawStr t) =
      validate_purchase_item pd pi d c er .absent ∧
    validate_purchase_item pd pi d c (.val v) .absent =
      .ok ⟨d, c, some v, none⟩ ∧
    validate_purchase_item pd pi d c .absent (.val w) =
      .ok ⟨d, c, none, some w⟩ := by
  have hcount : (decide (c < 1) || decide (5000 < c)) = false := by
    simp only [Bool.or_eq_false_iff, decide_eq_false_iff_not, not_lt]
    exact ⟨hc1, hc2⟩
  have hwrange : (decide (w < 0) || decide (280 < w)) = false := by
    simp only [Bool.or_eq_false_iff, decide_eq_false_iff_not, not_lt]
    exact ⟨hw1, hw2⟩
  refine ⟨?_, ?_, ?_, ?_, ?_, ?_⟩
  · intro item
    unfold validate_purchase_item
    rw [hcount]
    simp only [normalize_empty, coerce_opt]
    split
    · simp
    · split <;> simp
  · intro item
    unfold validate_purchase_item
    rw [hcount]
    simp only [normalize_empty, coerce_opt]
    simp
  · unfold validate_purchase_item
    simp only [normalize_empty, hs, if_pos]
  · unfold validate_purchase_item
    simp only [normalize_empty, ht, if_pos]
  · unfold validate_purchase_item
    rw [hcount]
    simp only [normalize_empty, coerce_opt]
    simp
  · unfold validate_purchase_item
    rw [hcount]
    simp only [normalize_empty, coerce_opt]
    rw [hwrange]
    simp

/-- Witness for C9 at concrete inputs (trivial parsers, empty raw
strings, a valid calving date and a valid pregnancy length). -/
theorem purchase_item_validation_C9_witness :
    (∀ item, validate_purchase_item (fun _ => none) (fun _ => none)
      0 2 (.val 100) (.val 150) ≠ .ok item) ∧
    validate_purchase_item (fun _ => none) (fun _ => none)
      0 2 (.val 100) .absent = .ok ⟨0, 2, some 100, none⟩ := by
  have h := purchase_item_validation_C9 (fun _ => none) (fun _ => none)
    0 2 100 150 "" " " RawOpt.absent RawOpt.absent (by decide) (by decide)
    (by decide) (by decide) (by decide) (by decide)
  exact ⟨h.1, h.2.2.2.2.1⟩

/-! ## C5: pipeline idempotence against terminal jobs -/

/-- `update_progress` folded over any callback sequence leaves a
non-running row untouched. -/
theorem update_progress_foldl_of_not_running (us : List (ℤ × ℤ × ℤ))
    (j : ForecastJobModel) (h : j.status ≠ ForecastJobStatus.running) :
    us.foldl (fun j u => Repo.update_progress j u.1 (some u.2.1)
      (some u.2.2)) j = j := by
  induction us with
  | nil => rfl
  | cons u t ih =>
    have hstep : Repo.update_progress j u.1 (some u.2.1) (some u.2.2) = j := by
      unfold Repo.update_progress
      rw [if_pos h]
    simp only [List.foldl_cons, hstep, ih]

/-- C5 counterexample: a stored job in the terminal state `canceled` is
NOT early-returned by `run_forecast_job` — the pipeline publishes events
and uploads artifacts (the row itself survives only thanks to the
repository guards). -/
theorem run_forecast_job_canceled_C5_cex :
    (run_forecast_job canceledEnv 7).2 ≠ [] ∧
    (run_forecast_job canceledEnv 7).1 = some sampleCanceledJob ∧
    sampleCanceledJob.status.isTerminal = true := by
  refine ⟨by decide, by decide, by decide⟩

/-- C5 (amended): `run_forecast_job` returns early with no effects for a
job stored as succeeded or failed; a canceled job is not early-returned
(events are published and artifacts uploaded), but its row is never
mutated because every repository write is guarded. -/
theorem run_forecast_job_terminal_C5 (env : WorkerEnv) (now : ℕ)
    (job : ForecastJobModel) (hjob : env.job = some job) :
    ((job.status = ForecastJobStatus.succeeded ∨
        job.status = ForecastJobStatus.failed) →
      run_forecast_job env now = (some job, [])) ∧
    (job.status = ForecastJobStatus.canceled →
      (run_forecast_job env now).1 = some job) := by
  constructor
  · intro h
    simp only [run_forecast_job, hjob]
    rw [if_pos h]
  · intro h
    have ht : job.status.isTerminal = true := by
      rw [ForecastJobStatus.isTerminal, h]
      rfl
    have hguard : ¬(job.status = ForecastJobStatus.succeeded ∨
        job.status = ForecastJobStatus.failed) := by
      rw [h]
      rintro (h2 | h2) <;> exact ForecastJobStatus.noConfusion h2
    have hmr : Repo.mark_running job 10 (some (job.mc_runs_param : ℤ)) now
        = job := by
      unfold Repo.mark_running
      rw [if_pos ht]
    have hnr : job.status ≠ ForecastJobStatus.running := by
      rw [h]
      exact fun h2 => ForecastJobStatus.noConfusion h2
    have hfold := update_progress_foldl_of_not_running
      env.progress_updates job hnr
    have hmf : ∀ msg, Repo.mark_failed job msg now = job := by
      intro msg
      unfold Repo.mark_failed
      rw [if_pos ht]
    have hms : ∀ k1 k2 k3, Repo.mark_succeeded job k1 k2 k3 now = job := by
      intro k1 k2 k3
      unfold Repo.mark_succeeded
      rw [if_pos ht]
    simp only [run_forecast_job, hjob]
    rw [if_neg hguard]
    simp only [hmr, hfold, hmf, hms]
    cases env.dataset_row_present <;> cases env.dataset_object_available <;> simp

/-- Witness for C5: a freshly failed job is early-returned. -/
theorem run_forecast_job_terminal_C5_witness :
    run_forecast_job { canceledEnv with job := some sampleFailedJob } 7 =
      (some sampleFailedJob, []) := by
  exact (run_forecast_job_terminal_C5
    { canceledEnv with job := some sampleFailedJob } 7 sampleFailedJob
    rfl).1 (Or.inr (by decide))

/-! ## C7: average days-in-milk convention -/

/-- C7 counterexample: with no milking cow, the initial report-date
snapshot of the herd_m5 forecast path reports a null average
days-in-milk, not 0.0. -/
theorem initial_snapshot_dim_C7_cex :
    (record_counts [⟨CowStatus.dry, 0⟩]).milking = 0 ∧
    initial_avg_dim [⟨CowStatus.dry, 0⟩] = none ∧
    (none : Option ℚ) ≠ some 0 := by
  refine ⟨by decide, by decide, by decide⟩

/-- C7 (amended): in the herd_m5 path, the snapshots recorded by the
simulator report average days-in-milk 0.0 when no cow is milking, but the
initial report-date snapshot built by the forecast wrapper reports null
in that case (and agrees with the simulator value otherwise). -/
theorem avg_dim_convention_C7 (herd herd2 : List Cow)
    (h0 : (record_counts herd).milking = 0)
    (h1 : (record_counts herd2).milking ≠ 0) :
    record_avg_dim herd = 0 ∧
    initial_avg_dim herd = none ∧
    initial_avg_dim herd2 = some (record_avg_dim herd2) := by
  refine ⟨?_, ?_, ?_⟩
  · unfold record_avg_dim
    rw [if_pos h0]
  · unfold initial_avg_dim
    rw [if_pos h0]
  · unfold initial_avg_dim record_avg_dim
    rw [if_neg h1, if_neg h1]

/-- Witness for C7: a dry-only herd and a one-fresh-cow herd. -/
theorem avg_dim_convention_C7_witness :
    record_avg_dim [⟨CowStatus.dry, 0⟩] = 0 ∧
    initial_avg_dim [⟨CowStatus.dry, 0⟩] = none ∧
    initial_avg_dim [⟨CowStatus.fresh, 12⟩] =
      some (record_avg_dim [⟨CowStatus.fresh, 12⟩]) := by
  have h := avg_dim_convention_C7 [⟨CowStatus.dry, 0⟩]
    [⟨CowStatus.fresh, 12⟩] (by decide) (by decide)
  exact h

/-! ## C4: single completed run -/

/-- C4 counterexample: the herd_m5 builder emits confidence bands even
for a single completed run, so `series_p10` is not null there. -/
theorem herd_m5_single_run_bands_C4_cex :
    (build_result_herd_m5 [[sampleRow]] [] 1 (9 / 10) none).series_p10
      ≠ none := by
  simp [build_result_herd_m5]

/-- C4 (amended): in the legacy `run_forecast` path — the one the worker
pipeline invokes — a forecast with exactly one completed run returns the
raw run as P50 and has null `series_p10` and `series_p90`; the herd_m5
builder instead always emits bands. -/
theorem legacy_single_run_C4 (runs : List (List SnapshotRow))
    (ev : List EventsByMonth) (fd : Option ℤ) :
    (build_result_legacy runs ev 1 fd).series_p50 = runs.headD [] ∧
    (build_result_legacy runs ev 1 fd).series_p10 = none ∧
    (build_result_legacy runs ev 1 fd).series_p90 = none := by
  refine ⟨?_, ?_, ?_⟩ <;> simp [build_result_legacy]

/-! ## C6: snapshot head-count partition -/

/-- The four bucket counters of the herd_m5 counting loop add up to the
number of non-culled cows seen so far, for any starting accumulator. -/
theorem metric_foldl_sum (herd : List Cow) (acc : MetricCounts) :
    (herd.foldl metricStep acc).milking + (herd.foldl metricStep acc).dry +
        (herd.foldl metricStep acc).heifer +
        (herd.foldl metricStep acc).pregnant_heifer =
      acc.milking + acc.dry + acc.heifer + acc.pregnant_heifer +
        ((herd.filter (fun c => c.status ≠ CowStatus.culled)).length : ℤ) := by
  induction herd generalizing acc with
  | nil => simp
  | cons c t ih =>
    rw [List.foldl_cons, ih]
    have hstep : (metricStep acc c).milking + (metricStep acc c).dry +
        (metricStep acc c).heifer + (metricStep acc c).pregnant_heifer =
        acc.milking + acc.dry + acc.heifer + acc.pregnant_heifer +
          (if c.status = CowStatus.culled then 0 else 1) := by
      unfold metricStep Cow.is_milking
      cases c.status <;> simp <;> ring
    rw [hstep, List.filter_cons]
    by_cases hc : c.status = CowStatus.culled <;> simp [hc] <;> push_cast <;> ring

/-- Each bucket counter of the herd_m5 loop is monotone in the
accumulator. -/
theorem metric_foldl_mono (herd : List Cow) (acc : MetricCounts) :
    acc.milking ≤ (herd.foldl metricStep acc).milking ∧
    acc.dry ≤ (herd.foldl metricStep acc).dry ∧
    acc.heifer ≤ (herd.foldl metricStep acc).heifer ∧
    acc.pregnant_heifer ≤ (herd.foldl metricStep acc).pregnant_heifer := by
  induction herd generalizing acc with
  | nil => exact ⟨le_refl _, le_refl _, le_refl _, le_refl _⟩
  | cons c t ih =>
    rw [List.foldl_cons]
    have hstep : acc.milking ≤ (metricStep acc c).milking ∧
        acc.dry ≤ (metricStep acc c).dry ∧
        acc.heifer ≤ (metricStep acc c).heifer ∧
        acc.pregnant_heifer ≤ (metricStep acc c).pregnant_heifer := by
      unfold metricStep Cow.is_milking
      cases c.status <;> simp <;> omega
    have h2 := ih (metricStep acc c)
    exact ⟨le_trans hstep.1 h2.1, le_trans hstep.2.1 h2.2.1,
      le_trans hstep.2.2.1 h2.2.2.1, le_trans hstep.2.2.2 h2.2.2.2⟩

/-- One step of the legacy `counts_on` loop adds exactly one head to the
four buckets for an animal alive on `d`, provided a reachable status:
an animal of nonzero lactation is milking or dry. -/
theorem countsStep_sum (d : ℤ) (acc : EngineCounts) (a : Animal)
    (H : a.is_alive_on d = true → a.lactation_no ≠ 0 →
      a.status = AnimalStatus.milking ∨ a.status = AnimalStatus.dry) :
    (countsStep d acc a).milking + (countsStep d acc a).dry +
        (countsStep d acc a).heifer + (countsStep d acc a).pregnant_heifer =
      acc.milking + acc.dry + acc.heifer + acc.pregnant_heifer +
        (if a.is_alive_on d then 1 else 0) := by
  unfold countsStep
  by_cases halive : a.is_alive_on d = true
  · rw [if_pos halive]
    simp only [halive, Bool.not_true, Bool.false_eq_true, if_false]
    by_cases hl : a.lactation_no = 0
    · rw [if_pos hl]
      by_cases hph : a.status = AnimalStatus.pregnant_heifer <;>
        simp [hph] <;> ring
    · rw [if_neg hl]
      by_cases hdry : (a.in_dry_on d || decide (a.status = AnimalStatus.dry))
          = true
      · rw [if_pos hdry]
        simp only []
        ring
      · rw [if_neg hdry]
        rcases H halive hl with hm | hd
        · have hmb : (a.in_milking_on d ||
              decide (a.status = AnimalStatus.milking)) = true := by
            simp [hm]
          rw [if_pos hmb]
          simp only []
          ring
        · exfalso
          apply hdry
          simp [hd]
  · have hfalse : a.is_alive_on d = false := by
      cases hv : a.is_alive_on d
      · rfl
      · exact absurd hv halive
    rw [hfalse]
    simp

/-- The legacy `counts_on` buckets add up to the number of animals alive
on `d`, for any starting accumulator, under the reachable-status
hypothesis. -/
theorem counts_foldl_sum (d : ℤ) :
    ∀ (animals : List Animal) (acc : EngineCounts),
      (∀ a ∈ animals, a.is_alive_on d = true → a.lactation_no ≠ 0 →
        a.status = AnimalStatus.milking ∨ a.status = AnimalStatus.dry) →
      (animals.foldl (countsStep d) acc).milking +
          (animals.foldl (countsStep d) acc).dry +
          (animals.foldl (countsStep d) acc).heifer +
          (animals.foldl (countsStep d) acc).pregnant_heifer =
        acc.milking + acc.dry + acc.heifer + acc.pregnant_heifer +
          ((animals.filter (fun a => a.is_alive_on d)).length : ℤ) := by
  intro animals
  induction animals with
  | nil => intro acc H; simp
  | cons a t ih =>
    intro acc H
    rw [List.foldl_cons]
    rw [ih (countsStep d acc a) (fun x hx => H x (List.mem_cons_of_mem _ hx))]
    rw [countsStep_sum d acc a (H a (List.mem_cons_self a t))]
    rw [List.filter_cons]
    by_cases halive : a.is_alive_on d = true <;>
      simp [halive] <;> push_cast <;> ring

/-- Each bucket counter of the legacy loop is monotone in the
accumulator. -/
theorem counts_foldl_mono (d : ℤ) (animals : List Animal)
    (acc : EngineCounts) :
    acc.milking ≤ (animals.foldl (countsStep d) acc).milking ∧
    acc.dry ≤ (animals.foldl (countsStep d) acc).dry ∧
    acc.heifer ≤ (animals.foldl (countsStep d) acc).heifer ∧
    acc.pregnant_heifer ≤ (animals.foldl (countsStep d) acc).pregnant_heifer := by
  induction animals generalizing acc with
  | nil => exact ⟨le_refl _, le_refl _, le_refl _, le_refl _⟩
  | cons a t ih =>
    rw [List.foldl_cons]
    have hstep : acc.milking ≤ (countsStep d acc a).milking ∧
        acc.dry ≤ (countsStep d acc a).dry ∧
        acc.heifer ≤ (countsStep d acc a).heifer ∧
        acc.pregnant_heifer ≤ (countsStep d acc a).pregnant_heifer := by
      unfold countsStep
      split
      · exact ⟨le_refl _, le_refl _, le_refl _, le_refl _⟩
      · split
        · split <;> simp <;> omega
        · split
          · simp
          · split <;> simp <;> omega
    have h2 := ih (countsStep d acc a)
    exact ⟨le_trans hstep.1 h2.1, le_trans hstep.2.1 h2.2.1,
      le_trans hstep.2.2.1 h2.2.2.1, le_trans hstep.2.2.2 h2.2.2.2⟩

/-- C6: in every emitted snapshot, the four head counts add up to the
number of non-archived (non-culled) animals on that day, and none of
them is negative — unconditionally for the herd_m5 `_record_metrics`
loop, and for the legacy `counts_on` under the reachable-status
hypothesis that an alive animal in lactation is milking or dry. -/
theorem snapshot_headcount_partition_C6 (herd : List Cow)
    (animals : List Animal) (d : ℤ)
    (H : ∀ a ∈ animals, a.is_alive_on d = true → a.lactation_no ≠ 0 →
      a.status = AnimalStatus.milking ∨ a.status = AnimalStatus.dry) :
    ((record_counts herd).milking + (record_counts herd).dry +
        (record_counts herd).heifer + (record_counts herd).pregnant_heifer =
      ((herd.filter (fun c => c.status ≠ CowStatus.culled)).length : ℤ) ∧
      0 ≤ (record_counts herd).milking ∧ 0 ≤ (record_counts herd).dry ∧
      0 ≤ (record_counts herd).heifer ∧
      0 ≤ (record_counts herd).pregnant_heifer) ∧
    ((counts_on animals d).milking + (counts_on animals d).dry +
        (counts_on animals d).heifer + (counts_on animals d).pregnant_heifer =
      ((animals.filter (fun a => a.is_alive_on d)).length : ℤ) ∧
      0 ≤ (counts_on animals d).milking ∧ 0 ≤ (counts_on animals d).dry ∧
      0 ≤ (counts_on animals d).heifer ∧
      0 ≤ (counts_on animals d).pregnant_heifer) := by
  constructor
  · have hsum := metric_foldl_sum herd ⟨0, 0, 0, 0, 0⟩
    have hmono := metric_foldl_mono herd ⟨0, 0, 0, 0, 0⟩
    unfold record_counts
    refine ⟨?_, hmono.1, hmono.2.1, hmono.2.2.1, hmono.2.2.2⟩
    rw [hsum]
    ring
  · have hsum := counts_foldl_sum d animals ⟨0, 0, 0, 0⟩ H
    have hmono := counts_foldl_mono d animals ⟨0, 0, 0, 0⟩
    unfold counts_on
    refine ⟨?_, hmono.1, hmono.2.1, hmono.2.2.1, hmono.2.2.2⟩
    rw [hsum]
    ring

/-- Witness for C6 on a small mixed herd and animal set. -/
theorem snapshot_headcount_partition_C6_witness :
    ((record_counts [⟨CowStatus.fresh, 3⟩, ⟨CowStatus.dry, 0⟩,
        ⟨CowStatus.culled, 0⟩, ⟨CowStatus.heifer, 0⟩]).milking +
      (record_counts [⟨CowStatus.fresh, 3⟩, ⟨CowStatus.dry, 0⟩,
        ⟨CowStatus.culled, 0⟩, ⟨CowStatus.heifer, 0⟩]).dry +
      (record_counts [⟨CowStatus.fresh, 3⟩, ⟨CowStatus.dry, 0⟩,
        ⟨CowStatus.culled, 0⟩, ⟨CowStatus.heifer, 0⟩]).heifer +
      (record_counts [⟨CowStatus.fresh, 3⟩, ⟨CowStatus.dry, 0⟩,
        ⟨CowStatus.culled, 0⟩, ⟨CowStatus.heifer, 0⟩]).pregnant_heifer =
      (([⟨CowStatus.fresh, 3⟩, ⟨CowStatus.dry, 0⟩, ⟨CowStatus.culled, 0⟩,
        ⟨CowStatus.heifer, 0⟩] : List Cow).filter
          (fun c => c.status ≠ CowStatus.culled)).length) ∧
    ((counts_on [⟨1, AnimalStatus.milking, none, none, some 0, none⟩,
        ⟨0, AnimalStatus.heifer, none, none, none, none⟩] 5).milking +
      (counts_on [⟨1, AnimalStatus.milking, none, none, some 0, none⟩,
        ⟨0, AnimalStatus.heifer, none, none, none, none⟩] 5).dry +
      (counts_on [⟨1, AnimalStatus.milking, none, none, some 0, none⟩,
        ⟨0, AnimalStatus.heifer, none, none, none, none⟩] 5).heifer +
      (counts_on [⟨1, AnimalStatus.milking, none, none, some 0, none⟩,
        ⟨0, AnimalStatus.heifer, none, none, none, none⟩] 5).pregnant_heifer =
      (([⟨1, AnimalStatus.milking, none, none, some 0, none⟩,
        ⟨0, AnimalStatus.heifer, none, none, none, none⟩] : List Animal).filter
          (fun a => a.is_alive_on 5)).length) := by
  have h := snapshot_headcount_partition_C6
    [⟨CowStatus.fresh, 3⟩, ⟨CowStatus.dry, 0⟩, ⟨CowStatus.culled, 0⟩,
      ⟨CowStatus.heifer, 0⟩]
    [⟨1, AnimalStatus.milking, none, none, some 0, none⟩,
      ⟨0, AnimalStatus.heifer, none, none, none, none⟩] 5
    (by decide)
  exact ⟨h.1.1, h.2.1⟩

/-! ## C3: percentile aggregation of the series -/

/-- `np.percentile` at `100·p` percent equals the spec-side quantile at
fraction `p`. -/
theorem npPercentile_hundred (values : List ℚ) (p : ℚ) :
    npPercentile values (100 * p) = quantileAtFraction values p := by
  unfold npPercentile quantileAtFraction
  congr 1
  ring

/-- `getD` of a map over `List.range`. -/
theorem getD_map_range {α : Type} (L : ℕ) (f : ℕ → α) (i : ℕ) (d : α)
    (h : i < L) : ((List.range L).map f).getD i d = f i := by
  rw [List.getD_eq_getElem?_getD, List.getElem?_map, List.getElem?_range h]
  rfl

/-- `int(round(x))` returns a nearest integer: it is within 1/2 of `x`. -/
theorem roundHalfEven_nearest (x : ℚ) :
    |((roundHalfEven x : ℤ) : ℚ) - x| ≤ 1 / 2 := by
  simp only [roundHalfEven]
  have h0 : ((⌊x⌋ : ℤ) : ℚ) ≤ x := Int.floor_le x
  have h1 : x < ((⌊x⌋ : ℤ) : ℚ) + 1 := Int.lt_floor_add_one x
  split_ifs with ha hb hc <;>
    rw [abs_le] <;> constructor <;> push_cast <;> linarith

/-- The herd_m5 per-index aggregation at `100·p` percent matches the
claim's description at fraction `p`. -/
theorem percentile_row_at_eq_claim (runs : List (List SnapshotRow))
    (idx : ℕ) (p : ℚ) :
    percentile_row_at runs (100 * p) idx = claim_aggregated_row runs idx p := by
  unfold percentile_row_at claim_aggregated_row
  simp only [npPercentile_hundred]

/-- C3 counterexample: the legacy `_percentile_series` path does not
quantile-aggregate head counts — with two runs whose milking counts are
3 and 5, the P50 series reports 3 (copied from the first run), not the
median 4 that the claim requires. -/
theorem legacy_aggregation_C3_cex :
    ((build_result_legacy [[sampleRow], [sampleRowB]] [] 2
        none).series_p50.getD 0 default).milking_count = 3 ∧
    roundHalfEven (quantileAtFraction [(3 : ℚ), 5] (1 / 2)) = 4 ∧
    (3 : ℤ) ≠ 4 := by
  have hq : quantileAtFraction [(3 : ℚ), 5] (1 / 2) = 4 := by
    simp [quantileAtFraction, sortedInterp]
    norm_num [Int.fract]
  have hr : roundHalfEven (quantileAtFraction [(3 : ℚ), 5] (1 / 2)) = 4 := by
    rw [hq]
    simp [roundHalfEven]
  refine ⟨?_, hr, by decide⟩
  simp [build_result_legacy, percentile_series, sampleRow, sampleRowB]

/-- C3 (amended): in the herd_m5 aggregation (`_percentile_rows`), every
output series point at snapshot index `idx` is, per numeric field, the
quantile of that field's values sorted across runs — P50 at the median
fraction 1/2, the low/high bands at fractions `(1−c)/2` and
`1−(1−c)/2` — with head counts rounded to a nearest integer and average
days-in-milk left fractional.  The legacy path instead copies head
counts from the first run and uses fixed 10/90 bands. -/
theorem herd_m5_aggregation_C3 (runs : List (List SnapshotRow))
    (events : List EventsByMonth) (completed : ℕ) (conf : ℚ)
    (fd : Option ℤ) (idx : ℕ) (h2 : 2 ≤ completed)
    (hidx : idx < (runs.headD []).length) :
    ((build_result_herd_m5 runs events completed conf fd).series_p50.getD
        idx default = claim_aggregated_row runs idx (1 / 2)) ∧
    (∃ plo, (build_result_herd_m5 runs events completed conf fd).series_p10
        = some plo ∧
      plo.getD idx default = claim_aggregated_row runs idx ((1 - conf) / 2)) ∧
    (∃ phi, (build_result_herd_m5 runs events completed conf fd).series_p90
        = some phi ∧
      phi.getD idx default =
        claim_aggregated_row runs idx (1 - (1 - conf) / 2)) := by
  have h50 : (50 : ℚ) = 100 * (1 / 2) := by norm_num
  have hlo : (1 - conf) / 2 * 100 = 100 * ((1 - conf) / 2) := by ring
  have hhi : 100 - (1 - conf) / 2 * 100 = 100 * (1 - (1 - conf) / 2) := by
    ring
  refine ⟨?_, ⟨percentile_rows runs ((1 - conf) / 2 * 100), rfl, ?_⟩,
    ⟨percentile_rows runs (100 - (1 - conf) / 2 * 100), rfl, ?_⟩⟩
  · show (percentile_rows runs 50).getD idx default = _
    unfold percentile_rows
    rw [getD_map_range _ _ _ _ hidx, h50, percentile_row_at_eq_claim]
  · unfold percentile_rows
    rw [getD_map_range _ _ _ _ hidx, hlo, percentile_row_at_eq_claim]
  · unfold percentile_rows
    rw [getD_map_range _ _ _ _ hidx, hhi, percentile_row_at_eq_claim]

/-- Witness for C3 on two concrete runs at confidence 0.9. -/
theorem herd_m5_aggregation_C3_witness :
    (build_result_herd_m5 [[sampleRow], [sampleRowB]] [] 2 (9 / 10)
        none).series_p50.getD 0 default =
      claim_aggregated_row [[sampleRow], [sampleRowB]] 0 (1 / 2) := by
  exact (herd_m5_aggregation_C3 [[sampleRow], [sampleRowB]] [] 2 (9 / 10)
    none 0 (by norm_num) (by decide)).1

/-! ## C2: Monte Carlo seeding and determinism -/

/-- Concatenating the batch slices gives back the seed list. -/
theorem batchSlices_flatten (b : ℕ) :
    ∀ (n : ℕ) (xs : List ℤ), xs.length ≤ n →
      (batchSlices b xs).flatten = xs := by
  intro n
  induction n with
  | zero =>
    intro xs h
    have hx : xs = [] := List.eq_nil_of_length_eq_zero (Nat.le_zero.mp h)
    subst hx
    rw [batchSlices]
    simp
  | succ n ih =>
    intro xs h
    rw [batchSlices]
    by_cases hx : xs = []
    · simp [hx]
    · rw [dif_neg hx, List.flatten_cons]
      have hlen : (xs.drop (max 1 b)).length ≤ n := by
        have h1 : 0 < xs.length := List.length_pos.mpr hx
        rw [List.length_drop]
        have h2 : 1 ≤ max 1 b := le_max_left 1 b
        omega
      rw [ih _ hlen]
      exact List.take_append_drop _ xs

/-- The orchestration loop, whatever the batch size, executes exactly the
derived seed list in order. -/
theorem orchestrated_runs_eq {α : Type} (runOne : ℤ → α) (seed : ℤ)
    (mc_runs b : ℕ) :
    orchestrated_runs runOne seed mc_runs b =
      (mcSeeds seed mc_runs).map runOne := by
  unfold orchestrated_runs
  rw [← List.map_flatten, batchSlices_flatten b (mcSeeds seed mc_runs).length
    (mcSeeds seed mc_runs) le_rfl]

/-- The `i`-th derived seed is `seed + i·9973`. -/
theorem mcSeeds_getElem (seed : ℤ) (n i : ℕ) (h : i < n) :
    (mcSeeds seed n)[i]? = some (seed + (i : ℤ) * 9973) := by
  unfold mcSeeds
  rw [List.getElem?_map, List.getElem?_range h]
  rfl

/-- C2: the orchestrators are deterministic and follow the seeding law:
with master seed `s`, the loop executes exactly the runs
`[runOne (s + i·9973) for i < mc_runs]` in order (run `i` re-seeded with
`s + i·9973`), and the final `ForecastResult` built from a scenario and a
master seed is the same on every execution, independently even of the
batch size. -/
theorem mc_seeding_determinism_C2 {α : Type} (runOneG : ℤ → α)
    (runOne : ℤ → List SnapshotRow × List EventsByMonth) (seed : ℤ)
    (mc_runs b b2 : ℕ) (conf : ℚ) (fd : Option ℤ) :
    orchestrated_runs runOneG seed mc_runs b =
      (mcSeeds seed mc_runs).map runOneG ∧
    (∀ i, i < mc_runs → (orchestrated_runs runOneG seed mc_runs b)[i]? =
      some (runOneG (seed + (i : ℤ) * 9973))) ∧
    run_forecast_model runOne seed mc_runs b conf fd =
      run_forecast_model runOne seed mc_runs b2 conf fd := by
  refine ⟨orchestrated_runs_eq runOneG seed mc_runs b, ?_, ?_⟩
  · intro i hi
    rw [orchestrated_runs_eq, List.getElem?_map,
      mcSeeds_getElem seed mc_runs i hi]
    rfl
  · unfold run_forecast_model
    rw [orchestrated_runs_eq, orchestrated_runs_eq]

/-- Witness for C2 with the identity run function, master seed 42, three
runs, batch size 8. -/
theorem mc_seeding_determinism_C2_witness :
    orchestrated_runs (fun s => s) 42 3 8 =
      (mcSeeds 42 3).map (fun s => s) ∧
    (orchestrated_runs (fun s => s) 42 3 8)[1]? =
      some (42 + (1 : ℤ) * 9973) := by
  have h := mc_seeding_determinism_C2 (fun s => (s : ℤ))
    (fun _ => ([], [])) 42 3 8 5 (9 / 10) none
  exact ⟨h.1, h.2.1 1 (by norm_num)⟩

end HerdSpec
